import Mathlib

/-!
Verification of the hdb-kaki incremental ETL pipeline: shallow embedding of
`webapp/update/extract.py`, `webapp/update/geocoding.py`,
`webapp/update/property_info.py`, `webapp/update/datagov.py` and
`webapp/update/convert.py`, with theorems about the merge engine, the
geocoding fallback chain, the property-reference updater, the dataset
downloader and the compaction derivations.
-/

namespace HdbKaki

/-- Python exceptions that the embedded code can raise. -/
inductive PyErr where
  | nameError (var : String)
  | keyError
  | typeError
  | indexError
  | valueError
deriving Repr, DecidableEq

deriving instance DecidableEq for Except

/-- Keep the first occurrence of each key, like pandas
`drop_duplicates(keep="first")`; `seen` accumulates the keys already kept. -/
def dedupFirstAux (key : α → β) [DecidableEq β] (seen : List β) : List α → List α
  | [] => []
  | x :: xs =>
    if key x ∈ seen then dedupFirstAux key seen xs
    else x :: dedupFirstAux key (key x :: seen) xs

/-- Pandas `drop_duplicates(subset=key)` with the default `keep="first"`. -/
def dedupFirst (key : α → β) [DecidableEq β] (l : List α) : List α :=
  dedupFirstAux key [] l

/-- Pandas `drop_duplicates(subset=key, keep="last")`: keep the last
occurrence of each key, in the order those last occurrences appear. -/
def dedupLast (key : α → β) [DecidableEq β] (l : List α) : List α :=
  (dedupFirst key l.reverse).reverse

/-! ## Data model of `webapp/update/extract.py`

A freshly fetched transaction record, as returned by `get_data`: the raw
upstream columns of the resale API plus the derived `address` column
(`df["address"] = df["block"] + " " + df["street_name"]`).  The upstream
feed carries no coordinate columns.  Floats are embedded as `Rat`. -/
structure TxRecord where
  id : Int                     -- the upstream `_id` column
  month : String
  town : String
  flat_type : String
  block : String
  street_name : String
  storey_range : String
  floor_area_sqm : Rat
  flat_model : String
  lease_commence_date : Int
  remaining_lease : String
  resale_price : Rat
deriving Repr, DecidableEq

/-- The derived address column: `block + " " + street_name`. -/
def TxRecord.address (r : TxRecord) : String := r.block ++ " " ++ r.street_name

/-- One row of a persisted period file `data/<YYYY-MM>.csv`, as loaded by
`load_existing_data` (nullable `Int64`/float columns become `Option`).
The `ts` field is the `_ts` first-seen timestamp column. -/
structure FileRow where
  id : Int                     -- `_id`
  month : String
  town : String
  flat_type : String
  block : String
  street_name : String
  storey_range : String
  floor_area_sqm : Rat
  flat_model : String
  lease_commence_date : Int
  remaining_lease : String
  resale_price : Rat
  address : String
  postal : Option Int
  latitude : Option Rat
  longitude : Option Rat
  ts : Option String           -- `_ts`
deriving Repr, DecidableEq

/-- A row of the `property_coords` frame inside `process_month`:
the projection of a file row to `["address", "postal", "latitude", "longitude"]`. -/
structure CoordRow where
  address : String
  postal : Option Int
  latitude : Option Rat
  longitude : Option Rat
deriving Repr, DecidableEq

/-- Projection `existing_data[["address", "postal", "latitude", "longitude"]]`. -/
def FileRow.coords (e : FileRow) : CoordRow :=
  ⟨e.address, e.postal, e.latitude, e.longitude⟩

/-- Side effects performed by `process_month`, recorded for the frame
conditions: the data fetch (`get_data`), the geocoding batch
(`get_map_results`) and the final `df.to_csv` write. -/
inductive Event where
  | fetchData
  | fetchMap
  | writeFile
deriving Repr, DecidableEq

/-- Result of one `process_month` call: the period file contents after the
call (the filesystem state), the side effects performed, and either the
returned boolean or the Python exception that escaped. -/
structure PMResult where
  file : Option (List FileRow)
  events : List Event
  result : Except PyErr Bool
deriving Repr, DecidableEq

/-- Embeds `load_existing_data`: read the period CSV if it exists, else an
empty frame. -/
def load_existing_data (file : Option (List FileRow)) : List FileRow :=
  file.getD []

/-- Embeds `skip_process`: `True` means "go on and process", `False` means
"skip" (the file exists and this period is not to be re-processed). -/
def skip_process (file_exists : Bool) (should_process : Bool) : Bool :=
  if file_exists && !should_process then false else true

/-- The left-merge `new_data.merge(property_coords, on="address", how="left")`
for one fetched row: attach the coordinates of the first `property_coords`
row with a matching address (the frame has unique addresses), else nulls.
The `_ts` column does not exist yet at this point (`ts := none`). -/
def merge_coords (property_coords : List CoordRow) (r : TxRecord) : FileRow :=
  match property_coords.find? (fun c => c.address == r.address) with
  | some c =>
    ⟨r.id, r.month, r.town, r.flat_type, r.block, r.street_name, r.storey_range,
      r.floor_area_sqm, r.flat_model, r.lease_commence_date, r.remaining_lease,
      r.resale_price, r.address, c.postal, c.latitude, c.longitude, none⟩
  | none =>
    ⟨r.id, r.month, r.town, r.flat_type, r.block, r.street_name, r.storey_range,
      r.floor_area_sqm, r.flat_model, r.lease_commence_date, r.remaining_lease,
      r.resale_price, r.address, none, none, none, none⟩

/-- The `property_coords` frame (`process_month` lines 174-178): the
coordinate projection of the existing file, deduplicated by address
keeping the first occurrence, then rows with a null `postal` dropped. -/
def property_coords_of (existing_data : List FileRow) : List CoordRow :=
  (dedupFirst CoordRow.address (existing_data.map FileRow.coords)).filter
    (fun c => c.postal.isSome)

/-- Whether the `new_adresses` frame of `process_month` (lines 180-192) is
non-empty when line 194 tests it: some fetched address has no
non-null-postal coordinate row in the existing file, or some existing row
lacks latitude or longitude (in which case `addresses_to_update` is
concatenated in, and a concatenation with a non-empty part stays non-empty
through `drop_duplicates`). -/
def new_adresses_nonempty (existing_data : List FileRow) (new_data : List TxRecord) : Bool :=
  let property_coords := property_coords_of existing_data
  let existing_addresses := property_coords.map CoordRow.address
  let new_adresses :=
    dedupFirst TxRecord.address
      (new_data.filter (fun r => !existing_addresses.contains r.address))
  let missing_lat_lon :=
    existing_data.filter (fun e => e.latitude.isNone || e.longitude.isNone)
  !new_adresses.isEmpty || !missing_lat_lon.isEmpty

/-- The merged frame `process_month` persists (lines 201-226): the fetched
rows left-joined to `property_coords` on address, then the `_ts`
carry-forward via `ts_map` (first occurrence per `_id` in the existing
file), then `fillna(today)`. -/
def merged_output (today : String) (existing_data : List FileRow)
    (new_data : List TxRecord) : List FileRow :=
  let property_coords := property_coords_of existing_data
  let merged_df := new_data.map (merge_coords property_coords)
  let merged_ts := merged_df.map (fun m =>
    { m with ts := (existing_data.find? (fun e : FileRow => e.id == m.id)).bind FileRow.ts })
  merged_ts.map (fun m => { m with ts := some (m.ts.getD today) })

/-- Embeds `process_month(month, data_dir, should_process)` from
`webapp/update/extract.py`.  Inputs that the Python function obtains from
the outside world are passed explicitly: `today` is
`datetime.today().strftime("%Y-%m-%d")`, `fetched` is what
`get_data(start_date=month, end_date=month)` returns for this month, and
`file` is the current contents of `data/<month>.csv` (`none` if absent).

Mirrors the source line by line:
* the `skip_process` early return;
* the empty-fetch early return;
* the equal-record-count early return;
* the `if not existing_data.empty:` block that alone assigns
  `property_coords` and `new_adresses` — when the existing frame is empty
  the later unconditional read of `new_adresses` raises `NameError`;
* the `if not new_adresses.empty:` block, whose body evaluates
  `get_map_results` and then
  `existing_data["address", "postal", "latitude", "longtitude"]`, which
  indexes the frame with a single tuple column key and raises `KeyError`;
* the coordinate left-merge (the fetched frame carries no
  postal/latitude/longitude columns, so the preceding `drop` is a no-op);
* the `_ts` carry-forward through `ts_map` (`set_index("_id")["_ts"]` with
  duplicated ids dropped keeping the first) — the guard
  `not any([existing_data.empty and new_data.empty])` is always true here
  since `new_data` is non-empty;
* the `fillna(today)` stamp for ids unseen in the existing file;
* the `astype` coercion, which raises `ValueError` when a nullable `postal`
  is null (cast to `int`);
* the discarded `df.sort_values(...)` (its result is not assigned), and the
  final `df.to_csv` write. -/
def process_month (today : String) (should_process : Bool)
    (fetched : List TxRecord) (file : Option (List FileRow)) : PMResult :=
  if !skip_process file.isSome should_process then ⟨file, [], .ok false⟩
  else
  let new_data := fetched
  if new_data.isEmpty then ⟨file, [Event.fetchData], .ok false⟩
  else
  let existing_data := load_existing_data file
  if !existing_data.isEmpty && (new_data.length == existing_data.length) then
    ⟨file, [Event.fetchData], .ok false⟩
  else
  if existing_data.isEmpty then
    -- line 194 reads `new_adresses`, never assigned on this path
    ⟨file, [Event.fetchData], .error (.nameError "new_adresses")⟩
  else
  if new_adresses_nonempty existing_data new_data then
    -- line 196 runs `get_map_results`, then line 198 raises `KeyError` on
    -- `existing_data["address", "postal", "latitude", "longtitude"]`
    ⟨file, [Event.fetchData, Event.fetchMap], .error .keyError⟩
  else
  let df := merged_output today existing_data new_data
  if df.all (fun m => m.postal.isSome) then
    ⟨some df, [Event.fetchData, Event.writeFile], .ok true⟩
  else
    ⟨file, [Event.fetchData], .error .valueError⟩

/-- The per-month processing decision of `extract` (line 289):
`should_process = args.force or month in (last_month, current_month)`. -/
def should_process_for (force : Bool) (month last_month current_month : String) : Bool :=
  force || (month == last_month || month == current_month)

/-! ## Geocoding (`webapp/update/extract.py` lines 46-99 and
`webapp/update/geocoding.py`)

The two modules hold two variants of `fetch_map_data`.  The network is
embedded as the response data each endpoint would deliver. -/

/-- One entry of the `results` array of a OneMap search response; the API
returns the `POSTAL`, `LATITUDE` and `LONGITUDE` fields as strings
(an unknown postal code comes back as the string `"NIL"`). -/
structure OneMapResult where
  postal : String              -- `POSTAL`
  latitude : String            -- `LATITUDE`
  longitude : String           -- `LONGITUDE`
deriving Repr, DecidableEq

/-- One entry of a Nominatim (OpenStreetMap) response: its `address`
object, which may or may not contain a `postcode` key. -/
structure OsmAddress where
  postcode : Option String
deriving Repr, DecidableEq

/-- The geocoding network: for each query address, the `results` array the
OneMap search endpoint returns and the response array of the Nominatim
endpoint. -/
structure GeoNet where
  onemap : String → List OneMapResult
  osm : String → List OsmAddress

/-- Embeds `fetch_osm_postal` (identical in both modules): `None` on an
empty response, else `response[0]["address"].get("postcode", None)`. -/
def fetch_osm_postal (response : List OsmAddress) : Option String :=
  match response with
  | [] => none
  | a :: _ => a.postcode

/-- The row dict built by the `extract.py` variant of `fetch_map_data`:
the postal code may have been replaced by the OSM fallback (which can be
`None`), latitude and longitude are the OneMap strings. -/
structure MapRow where
  address : String
  postal : Option String
  latitude : String
  longitude : String
deriving Repr, DecidableEq

/-- Which geocoding endpoints a call hit. -/
inductive GeoEvent where
  | onemapQuery (address : String)
  | osmQuery (address : String)
deriving Repr, DecidableEq

namespace Extract

/-- Embeds `fetch_map_data` from `webapp/update/extract.py` (lines 57-77):
`response = session.get(...).json()["results"][0]` raises `IndexError` on an
empty `results` array; otherwise the first result is a non-empty dict (so
`if response:` is true), and when `len(str(postal_code)) < 6` the postal
code is replaced by the OSM lookup.  Returns the row and the endpoints
queried. -/
def fetch_map_data (net : GeoNet) (query_address : String) :
    Except PyErr MapRow × List GeoEvent :=
  match net.onemap query_address with
  | [] => (.error .indexError, [.onemapQuery query_address])
  | response :: _ =>
    if response.postal.length < 6 then
      (.ok ⟨query_address, fetch_osm_postal (net.osm query_address),
          response.latitude, response.longitude⟩,
        [.onemapQuery query_address, .osmQuery query_address])
    else
      (.ok ⟨query_address, some response.postal, response.latitude, response.longitude⟩,
        [.onemapQuery query_address])

end Extract

/-- A row of the frame built by `geocoding.get_map_results`, and also the
shape of the `known_coords` frame of `property_info.py`
(`postal` is handled as a string there, latitude/longitude as floats). -/
structure GeoRow where
  address : String
  postal : Option String
  latitude : Option Rat
  longitude : Option Rat
deriving Repr, DecidableEq

namespace Geocoding

/-- Embeds `fetch_map_data` from `webapp/update/geocoding.py` (lines 18-45).
There `response = session.get(...).json()["results"]` is the whole results
array, and the non-empty branch evaluates `response["POSTAL"]` — indexing a
list with a string — which raises `TypeError` before anything else happens;
only the empty branch, which returns the all-null row, is reachable to
completion. -/
def fetch_map_data (net : GeoNet) (query_address : String) : Except PyErr GeoRow :=
  match net.onemap query_address with
  | [] => .ok ⟨query_address, none, none, none⟩
  | _ :: _ => .error .typeError

/-- Embeds `get_map_results` from `webapp/update/geocoding.py` (lines
48-67): deduplicate the addresses preserving first-seen order
(`dict.fromkeys`), map `fetch_map_data` over them (the thread pool joins
and `list(...)` re-raises the first worker exception), and assemble the
rows into a frame. -/
def get_map_results (net : GeoNet) (addresses : List String) :
    Except PyErr (List GeoRow) :=
  (dedupFirst id addresses).mapM (fetch_map_data net)

end Geocoding

/-! ## Property reference updater (`webapp/update/property_info.py`) -/

/-- The `LOCATION_DICT` building-code-to-town table of
`webapp/update/property_info.py` (lines 11-39). -/
def LOCATION_DICT : List (String × String) :=
  [("AMK", "ANG MO KIO"), ("BB", "BUKIT BATOK"), ("BD", "BEDOK"),
   ("BH", "BISHAN"), ("BM", "BUKIT MERAH"), ("BP", "BUKIT PANJANG"),
   ("BT", "BUKIT TIMAH"), ("CCK", "CHOA CHU KANG"), ("CL", "CLEMENTI"),
   ("CT", "CENTRAL AREA"), ("GL", "GEYLANG"), ("HG", "HOUGANG"),
   ("JE", "JURONG EAST"), ("JW", "JURONG WEST"), ("KWN", "KALLANG/WHAMPOA"),
   ("MP", "MARINE PARADE"), ("PG", "PUNGGOL"), ("PRC", "PASIR RIS"),
   ("QT", "QUEENSTOWN"), ("SB", "SEMBAWANG"), ("SGN", "SERANGOON"),
   ("SK", "SENGKANG"), ("TAP", "TAMPINES"), ("TG", "TENGAH"),
   ("TP", "TOA PAYOH"), ("WL", "WOODLANDS"), ("YS", "YISHUN")]

/-- A row of the property reference table
`data/HDB Property Information/HDB Property Information.CSV`: the derived
`address` and `town` columns, the building attributes, and the coordinate
columns.  `max_floor_lvl`, `year_completed` and `total_dwelling_units`
stand for the attribute columns; the remaining per-unit-type count columns
of `PROPERTY_INFO_SCHEMA` are carried through the merge in exactly the same
way and are omitted from the embedding.  Per `PROPERTY_INFO_SCHEMA`,
`postal` is kept as a string, latitude/longitude as floats. -/
structure PropRow where
  address : String
  town : Option String
  max_floor_lvl : Option Int
  year_completed : Option Int
  total_dwelling_units : Option Int
  postal : Option String
  latitude : Option Rat
  longitude : Option Rat
deriving Repr, DecidableEq

/-- The projection of a reference-table row to
`["address", "postal", "latitude", "longitude"]` (the `known_coords`
frame). -/
def PropRow.knownCoords (p : PropRow) : GeoRow :=
  ⟨p.address, p.postal, p.latitude, p.longitude⟩

/-- A row of the freshly downloaded bulk building file, before
preprocessing: the raw `blk_no`, `street` and `bldg_contract_town` columns
plus the attribute columns. -/
structure RawPropRow where
  blk_no : String
  street : String
  bldg_contract_town : Option String
  max_floor_lvl : Option Int
  year_completed : Option Int
  total_dwelling_units : Option Int
deriving Repr, DecidableEq

/-- Preprocessing of the downloaded frame (`property_info.py` lines
98-100): derive `address = blk_no + " " + street` and map
`bldg_contract_town` through `LOCATION_DICT` (unmapped codes become null,
as `Series.map` does).  The downloaded file carries no coordinate
columns. -/
def rawToProp (r : RawPropRow) : PropRow :=
  { address := r.blk_no ++ " " ++ r.street,
    town := r.bldg_contract_town.bind (fun c => LOCATION_DICT.lookup c),
    max_floor_lvl := r.max_floor_lvl,
    year_completed := r.year_completed,
    total_dwelling_units := r.total_dwelling_units,
    postal := none, latitude := none, longitude := none }

/-- The coordinate re-attachment of `update_property_info` (lines
107-110) for one row: drop the row's coordinate columns and left-join the
`known_coords` frame (the existing coordinate projection deduplicated by
address keeping the first, lines 82-84) by address — the first matching
known row's coordinates, or nulls when the address is unknown. -/
def attach_known (known_coords : List GeoRow) (m : PropRow) : PropRow :=
  match known_coords.find? (fun k => k.address == m.address) with
  | some k => { m with postal := k.postal, latitude := k.latitude, longitude := k.longitude }
  | none => { m with postal := none, latitude := none, longitude := none }

/-- Lines 105-110 of `property_info.py`: concatenate existing reference
rows and preprocessed new rows, `drop_duplicates` by address keeping the
last, and re-attach the known coordinates. -/
def merged_reference (existing_df : List PropRow) (new_data : List RawPropRow) :
    List PropRow :=
  let known_coords := dedupFirst GeoRow.address (existing_df.map PropRow.knownCoords)
  let merged0 := dedupLast PropRow.address (existing_df ++ new_data.map rawToProp)
  merged0.map (attach_known known_coords)

/-- The per-column fill of `update_property_info` (lines 120-129): for a
row whose latitude was null before geocoding, each of the three coordinate
columns is set to the fresh value mapped by address
(`set_index("address")[col].dropna()`), which is null when the fresh batch
has no non-null value for that address; other rows are untouched. -/
def assign_fresh (fresh_map_data : List GeoRow) (m : PropRow) : PropRow :=
  if m.latitude.isNone then
    { m with
      latitude := ((fresh_map_data.filter (fun g => g.latitude.isSome)).find?
        (fun g => g.address == m.address)).bind GeoRow.latitude,
      longitude := ((fresh_map_data.filter (fun g => g.longitude.isSome)).find?
        (fun g => g.address == m.address)).bind GeoRow.longitude,
      postal := ((fresh_map_data.filter (fun g => g.postal.isSome)).find?
        (fun g => g.address == m.address)).bind GeoRow.postal }
  else m

/-- Embeds `update_property_info` from `webapp/update/property_info.py`
(lines 63-144).  `existing` is the reference CSV before the call (`none` if
absent), `new_data` is the content the `download_collection` call deposits
at `file_path` (which `pd.read_csv(file_path)` then loads), and `net` is
the geocoding network used by `geocoding.get_map_results`.

Mirrors the source:
* `known_coords` is the coordinate projection of the existing file,
  deduplicated by address keeping the first occurrence (line 82-84);
* an empty download returns an empty frame without persisting (line
  89-91); the `blk_no`/`street` columns are present by typing;
* merge: concatenate existing and new, `drop_duplicates` by address keeping
  the last, drop the coordinate columns and left-join `known_coords` back
  on (lines 105-110);
* rows whose `latitude` is null after the join (the mask is computed
  before any fill) are geocoded; per coordinate column, the fresh results
  with a non-null value are keyed by address (`set_index(...).dropna()`)
  and every masked row is assigned the mapped value — null when its
  address has no non-null fresh value (lines 113-129).  An exception from
  `get_map_results` is not caught and propagates;
* the `astype` loop only coerces column dtypes (failures are logged and
  skipped), so values are unchanged; the merged frame is persisted and
  returned (lines 134-144). -/
def update_property_info (net : GeoNet) (existing : Option (List PropRow))
    (new_data : List RawPropRow) : Except PyErr (List PropRow) :=
  let existing_df := existing.getD []
  if new_data.isEmpty then .ok []
  else
  let merged1 := merged_reference existing_df new_data
  let addresses_to_geocode :=
    dedupFirst id ((merged1.filter (fun m => m.latitude.isNone)).map PropRow.address)
  if addresses_to_geocode.isEmpty then .ok merged1
  else
    match Geocoding.get_map_results net addresses_to_geocode with
    | .error e => .error e
    | .ok fresh_map_data =>
      if fresh_map_data.isEmpty then .ok merged1
      else .ok (merged1.map (assign_fresh fresh_map_data))

/-! ## Dataset download (`webapp/update/datagov.py`) -/

/-- A raw `lastUpdatedAt` timestamp string: `valid t` stands for an ISO
string that `datetime.datetime.fromisoformat` parses to the instant `t`
(instants are totally ordered, embedded as integers), `invalid` for a
non-empty string on which it raises `ValueError`.  An absent or empty
string is `none` at the use sites (falsy under `if existing_ts and
current_ts:`). -/
inductive TsVal where
  | valid (t : Int)
  | invalid
deriving Repr, DecidableEq

/-- `datetime.datetime.fromisoformat`, as a partial parse. -/
def fromisoformat : TsVal → Option Int
  | .valid t => some t
  | .invalid => none

/-- The `data` object of a dataset metadata response, restricted to the
keys `download_dataset` reads, plus the `lastAccessedAt` key it adds. -/
structure DatasetMeta where
  name : Option String
  format : Option String
  lastUpdatedAt : Option TsVal
  lastAccessedAt : Option String
deriving Repr, DecidableEq

/-- Outcome of one HTTP call: a response payload, or a
`requests.RequestException` with its message. -/
inductive NetResult (α : Type) where
  | ok (a : α)
  | failed (msg : String)
deriving Repr, DecidableEq

/-- The network as `download_dataset` sees it: the dataset metadata
response, the poll-download response (the optional `url` of its `data`
object) and the file content response. -/
structure DownloadNet where
  metaResp : NetResult DatasetMeta
  pollResp : NetResult (Option String)
  fileResp : NetResult String
deriving Repr, DecidableEq

/-- The local `metadata.json`: readable JSON, or a corrupt file
(`json.JSONDecodeError`/`IOError`, which the code logs and treats as no
prior state). -/
inductive MetaFile where
  | readable (d : List (String × DatasetMeta))
  | corrupt
deriving Repr, DecidableEq

/-- The `status` key of `download_dataset`'s return value. -/
inductive DlStatus where
  | success
  | skipped
  | error
deriving Repr, DecidableEq

/-- The dict `download_dataset` returns. -/
structure DlResult where
  status : DlStatus
  metadata : Option DatasetMeta
  error : Option String
deriving Repr, DecidableEq

/-- The HTTP requests `download_dataset` can make, in order: dataset
metadata, poll-download, file content. -/
inductive DlEvent where
  | metaFetch
  | pollFetch
  | fileFetch
deriving Repr, DecidableEq

/-- Full outcome of a `download_dataset` call: the returned dict, the
bytes written to the output file (if any), the `metadata.json` contents
written (if any), and the HTTP requests made. -/
structure DlOutcome where
  result : DlResult
  fileWritten : Option String
  metadataWritten : Option (List (String × DatasetMeta))
  events : List DlEvent
deriving Repr, DecidableEq

/-- Lines 141-155 of `datagov.py`: skip only when both timestamps are
present (truthy), both parse under `fromisoformat` (a `ValueError` is
caught and forces the update), and local ≥ remote. -/
def skip_check (existing_ts current_ts : Option TsVal) : Bool :=
  match existing_ts, current_ts with
  | some e, some c =>
    match fromisoformat e, fromisoformat c with
    | some dt_existing, some dt_current => decide (dt_current ≤ dt_existing)
    | _, _ => false
  | _, _ => false

/-- Python dict assignment `d[k] = v`: replace in place if the key exists,
else append. -/
def dictInsert (d : List (String × DatasetMeta)) (k : String) (v : DatasetMeta) :
    List (String × DatasetMeta) :=
  if (d.find? (fun p => p.1 == k)).isSome then
    d.map (fun p => if p.1 == k then (k, v) else p)
  else d ++ [(k, v)]

/-- Lines 110-119 of `datagov.py`: use the metadata dict passed by the
caller, else load `metadata.json`, with an absent or unreadable file
degrading to `{}`. -/
def loaded_emd (existing_metadata_dict : Option (List (String × DatasetMeta)))
    (metadata_file : Option MetaFile) : List (String × DatasetMeta) :=
  match existing_metadata_dict with
  | some d => d
  | none =>
    match metadata_file with
    | some (.readable d) => d
    | _ => []

/-- Embeds `download_dataset` from `webapp/update/datagov.py` (lines
65-209).  `collection_name`, `existing_metadata_dict` and the local
`metadata.json` contents are the explicit inputs the Python function takes
from its caller and the filesystem; `now` is
`datetime.datetime.now().isoformat()`; `net` is the network.

Mirrors the source:
* `collection_name` defaults to `"Standalone Datasets"`;
* the metadata dict is loaded per `loaded_emd`;
* a failed metadata fetch returns an error status (lines 123-129);
* the skip check per `skip_check` returns
  `{"status": "skipped", "metadata": existing_dataset_meta}` with nothing
  downloaded and nothing written (lines 134-152);
* a failed poll request, a missing download URL, or a failed file download
  each return an error status with nothing written (lines 161-188);
* on success the file content is written, `current_meta` gains
  `lastAccessedAt`, it is stored in the dict, and the dict is persisted to
  `metadata.json` only in standalone mode (lines 190-202); the whole body
  is wrapped in `try/except`, so no exception reaches the caller. -/
def download_dataset (dataset_id : String) (collection_name : Option String)
    (existing_metadata_dict : Option (List (String × DatasetMeta)))
    (metadata_file : Option MetaFile) (now : String) (net : DownloadNet) :
    DlOutcome :=
  let collection_name := collection_name.getD "Standalone Datasets"
  let emd := loaded_emd existing_metadata_dict metadata_file
  match net.metaResp with
  | .failed e => ⟨⟨.error, none, some e⟩, none, none, [.metaFetch]⟩
  | .ok current_meta =>
    let existing_dataset_meta := emd.lookup dataset_id
    let existing_ts := existing_dataset_meta.bind DatasetMeta.lastUpdatedAt
    let current_ts := current_meta.lastUpdatedAt
    if skip_check existing_ts current_ts then
      ⟨⟨.skipped, existing_dataset_meta, none⟩, none, none, [.metaFetch]⟩
    else
      match net.pollResp with
      | .failed e => ⟨⟨.error, none, some e⟩, none, none, [.metaFetch, .pollFetch]⟩
      | .ok none =>
        ⟨⟨.error, none, some "No download URL"⟩, none, none, [.metaFetch, .pollFetch]⟩
      | .ok (some _) =>
        match net.fileResp with
        | .failed e =>
          ⟨⟨.error, none, some e⟩, none, none, [.metaFetch, .pollFetch, .fileFetch]⟩
        | .ok content =>
          let current_meta := { current_meta with lastAccessedAt := some now }
          let newDict := dictInsert emd dataset_id current_meta
          ⟨⟨.success, some current_meta, none⟩, some content,
            if collection_name == "Standalone Datasets" then some newDict else none,
            [.metaFetch, .pollFetch, .fileFetch]⟩

/-! ## Compaction derivations (`webapp/update/convert.py`, `webapp/read.py`) -/

/-- Embeds `convert_lease` (identical in `webapp/update/convert.py` lines
9-16 and `webapp/read.py` lines 25-32).  When no branch fires (`x ≤ 0` or
`x > 99`) the function body reads the unassigned local `result`, raising
`NameError`; that is the `none` case. -/
def convert_lease (x : Int) : Option String :=
  if 0 < x ∧ x ≤ 60 then some "0-60 years"
  else if 60 < x ∧ x ≤ 80 then some "61-80 years"
  else if 80 < x ∧ x ≤ 99 then some "81-99 years"
  else none

/-- Truncation toward zero, the behaviour of a polars float-to-integer
`cast`. -/
def trunc_to_int (x : Rat) : Int :=
  if 0 ≤ x then x.floor else x.ceil

/-- The `floor_area_sqft` column derived in `csv_to_parquet`
(`webapp/update/convert.py` line 43):
`(pl.col("floor_area_sqm") * 10.7639).cast(pl.Int16)`. -/
def floor_area_sqft (floor_area_sqm : Rat) : Int :=
  trunc_to_int (floor_area_sqm * (107639 / 10000 : Rat))

/-- The `psf` column derived in `csv_to_parquet` (line 44):
`pl.col("resale_price") / (pl.col("floor_area_sqm") * 10.7639)` — note the
divisor is the un-truncated square-foot area. -/
def psf (floor_area_sqm resale_price : Rat) : Rat :=
  resale_price / (floor_area_sqm * (107639 / 10000 : Rat))

/-! ## Helper lemmas about deduplication and the reference merge -/

theorem find?_dedupFirstAux (key : α → β) [DecidableEq β] (seen : List β)
    (l : List α) (k : β) (hk : k ∉ seen) :
    (dedupFirstAux key seen l).find? (fun y => key y == k) =
      l.find? (fun y => key y == k) := by
  induction l generalizing seen with
  | nil => rfl
  | cons x xs ih =>
    by_cases hx : key x ∈ seen
    · have hpx : (key x == k) = false := by
        rw [beq_eq_false_iff_ne]
        intro hxk
        exact hk (hxk ▸ hx)
      rw [dedupFirstAux, if_pos hx, ih seen hk,
        @List.find?_cons_of_neg _ (fun y => key y == k) x xs (by simp [hpx])]
    · rw [dedupFirstAux, if_neg hx]
      by_cases hpx : (key x == k) = true
      · rw [@List.find?_cons_of_pos _ (fun y => key y == k) x
            (dedupFirstAux key (key x :: seen) xs) hpx,
          @List.find?_cons_of_pos _ (fun y => key y == k) x xs hpx]
      · have hne : k ∉ key x :: seen := by
          intro hmem
          rcases List.mem_cons.mp hmem with h1 | h1
          · exact hpx (by rw [h1]; exact beq_self_eq_true _)
          · exact hk h1
        rw [@List.find?_cons_of_neg _ (fun y => key y == k) x
            (dedupFirstAux key (key x :: seen) xs) hpx,
          @List.find?_cons_of_neg _ (fun y => key y == k) x xs hpx,
          ih (key x :: seen) hne]

theorem find?_dedupFirst (key : α → β) [DecidableEq β] (l : List α) (k : β) :
    (dedupFirst key l).find? (fun y => key y == k) = l.find? (fun y => key y == k) :=
  find?_dedupFirstAux key [] l k (List.not_mem_nil k)

theorem attach_known_address (known_coords : List GeoRow) (m : PropRow) :
    (attach_known known_coords m).address = m.address := by
  unfold attach_known
  cases known_coords.find? (fun k => k.address == m.address) <;> rfl

theorem attach_known_of_find (known_coords : List GeoRow) (m : PropRow) (k0 : GeoRow)
    (h : known_coords.find? (fun k => k.address == m.address) = some k0) :
    attach_known known_coords m =
      { m with postal := k0.postal, latitude := k0.latitude, longitude := k0.longitude } := by
  unfold attach_known
  rw [h]

theorem assign_fresh_address (fresh_map_data : List GeoRow) (m : PropRow) :
    (assign_fresh fresh_map_data m).address = m.address := by
  unfold assign_fresh
  split <;> rfl

theorem assign_fresh_of_lat_some (fresh_map_data : List GeoRow) (m : PropRow) (lv : Rat)
    (h : m.latitude = some lv) : assign_fresh fresh_map_data m = m := by
  simp [assign_fresh, h]

/-- A row of the re-attached merge whose address has a match in the
existing reference takes exactly the coordinates of the first existing row
with that address. -/
theorem merged_reference_coords (existing_df : List PropRow)
    (new_data : List RawPropRow) (a : String) (e : PropRow)
    (he : existing_df.find? (fun p : PropRow => p.address == a) = some e)
    (m : PropRow) (hm : m ∈ merged_reference existing_df new_data)
    (hma : m.address = a) :
    m.postal = e.postal ∧ m.latitude = e.latitude ∧ m.longitude = e.longitude := by
  simp only [merged_reference, List.mem_map] at hm
  obtain ⟨m0, hm0, rfl⟩ := hm
  have hm0a : m0.address = a := by
    rw [← attach_known_address
      (dedupFirst GeoRow.address (existing_df.map PropRow.knownCoords)) m0]
    exact hma
  have hfind : (dedupFirst GeoRow.address (existing_df.map PropRow.knownCoords)).find?
      (fun k => k.address == m0.address) = some (PropRow.knownCoords e) := by
    rw [hm0a]
    rw [show (fun k : GeoRow => k.address == a) = (fun k => GeoRow.address k == a) from rfl]
    rw [find?_dedupFirst GeoRow.address (existing_df.map PropRow.knownCoords) a]
    rw [List.find?_map]
    have hcomp : existing_df.find? ((fun y : GeoRow => GeoRow.address y == a) ∘
        PropRow.knownCoords) = some e := he
    rw [hcomp]
    rfl
  rw [attach_known_of_find _ _ _ hfind]
  exact ⟨rfl, rfl, rfl⟩

/-- Every row of a completed `update_property_info` run comes from the
re-attached merge, either unchanged or through the per-column fresh-geocode
fill. -/
theorem upi_out_rows (net : GeoNet) (existing : List PropRow)
    (new_data : List RawPropRow) (out : List PropRow)
    (hout : update_property_info net (some existing) new_data = .ok out)
    (r : PropRow) (hr : r ∈ out) :
    ∃ m ∈ merged_reference existing new_data,
      r = m ∨ ∃ fresh, r = assign_fresh fresh m := by
  simp only [update_property_info, Option.getD_some] at hout
  split at hout
  · obtain rfl : ([] : List PropRow) = out := by
      simpa using hout
    simp at hr
  · split at hout
    · obtain rfl : merged_reference existing new_data = out := by
        simpa using hout
      exact ⟨r, hr, Or.inl rfl⟩
    · split at hout
      · simp at hout
      · rename_i fresh hfresh
        split at hout
        · obtain rfl : merged_reference existing new_data = out := by
            simpa using hout
          exact ⟨r, hr, Or.inl rfl⟩
        · obtain rfl : (merged_reference existing new_data).map (assign_fresh fresh) = out := by
            simpa using hout
          obtain ⟨m, hm, rfl⟩ := List.mem_map.mp hr
          exact ⟨m, hm, Or.inr ⟨fresh, rfl⟩⟩

/-! ## Helper lemmas about the merge engine -/

theorem merge_coords_id (pc : List CoordRow) (x : TxRecord) :
    (merge_coords pc x).id = x.id := by
  unfold merge_coords
  cases pc.find? (fun c => c.address == x.address) <;> rfl

theorem merged_output_length (today : String) (existing_data : List FileRow)
    (new_data : List TxRecord) :
    (merged_output today existing_data new_data).length = new_data.length := by
  simp [merged_output]

theorem mem_merged_output_ts (today : String) (existing_data : List FileRow)
    (new_data : List TxRecord) (r : FileRow)
    (hr : r ∈ merged_output today existing_data new_data) :
    r.ts =
      some (((existing_data.find? (fun e : FileRow => e.id == r.id)).bind
        FileRow.ts).getD today) := by
  simp only [merged_output, List.mem_map] at hr
  obtain ⟨m2, ⟨m1, ⟨x, _, rfl⟩, rfl⟩, rfl⟩ := hr
  rfl

theorem process_month_skip_eq (today : String) (sp : Bool) (fetched : List TxRecord)
    (file : Option (List FileRow)) (h : skip_process file.isSome sp = false) :
    process_month today sp fetched file = ⟨file, [], .ok false⟩ := by
  simp [process_month, h]

theorem process_month_emptyfetch_eq (today : String) (sp : Bool)
    (fetched : List TxRecord) (file : Option (List FileRow))
    (h : skip_process file.isSome sp = true) (he : fetched.isEmpty = true) :
    process_month today sp fetched file = ⟨file, [Event.fetchData], .ok false⟩ := by
  simp [process_month, h, he]

theorem process_month_samelen_eq (today : String) (sp : Bool)
    (fetched : List TxRecord) (file : Option (List FileRow))
    (h : skip_process file.isSome sp = true) (he : fetched.isEmpty = false)
    (hl : (!(load_existing_data file).isEmpty &&
      (fetched.length == (load_existing_data file).length)) = true) :
    process_month today sp fetched file = ⟨file, [Event.fetchData], .ok false⟩ := by
  simp only [process_month, h, he, hl]
  rfl

/-- Case analysis of a `process_month` run that returned rather than
raised: either it returned `False` leaving the file as it was (for every
processing date), or it returned `True` after writing the merged frame,
whose row count equals the fetched row count. -/
theorem process_month_ok_shape (today : String) (sp : Bool) (fetched : List TxRecord)
    (file : Option (List FileRow)) (b : Bool)
    (h : (process_month today sp fetched file).result = .ok b) :
    (b = false ∧ ∀ t2 : String, ∃ ev, process_month t2 sp fetched file = ⟨file, ev, .ok false⟩) ∨
    (b = true ∧ sp = true ∧ fetched.isEmpty = false ∧
      process_month today sp fetched file =
        ⟨some (merged_output today (load_existing_data file) fetched),
          [Event.fetchData, Event.writeFile], .ok true⟩) := by
  cases c1 : skip_process file.isSome sp with
  | false =>
    left
    have e := fun t2 => process_month_skip_eq t2 sp fetched file c1
    rw [e today] at h
    simp only [Except.ok.injEq] at h
    exact ⟨h.symm, fun t2 => ⟨[], e t2⟩⟩
  | true =>
    cases c2 : fetched.isEmpty with
    | true =>
      left
      have e := fun t2 => process_month_emptyfetch_eq t2 sp fetched file c1 c2
      rw [e today] at h
      simp only [Except.ok.injEq] at h
      exact ⟨h.symm, fun t2 => ⟨[Event.fetchData], e t2⟩⟩
    | false =>
      cases c3 : (!(load_existing_data file).isEmpty &&
          (fetched.length == (load_existing_data file).length)) with
      | true =>
        left
        have e := fun t2 => process_month_samelen_eq t2 sp fetched file c1 c2 c3
        rw [e today] at h
        simp only [Except.ok.injEq] at h
        exact ⟨h.symm, fun t2 => ⟨[Event.fetchData], e t2⟩⟩
      | false =>
        cases c4 : (load_existing_data file).isEmpty with
        | true =>
          have e : process_month today sp fetched file =
              ⟨file, [Event.fetchData], .error (.nameError "new_adresses")⟩ := by
            simp [process_month, c1, c2, c3, c4]
          rw [e] at h
          simp at h
        | false =>
          have c3' : (fetched.length == (load_existing_data file).length) = false := by
            rw [c4] at c3
            simpa using c3
          cases c5 : new_adresses_nonempty (load_existing_data file) fetched with
          | true =>
            have e : process_month today sp fetched file =
                ⟨file, [Event.fetchData, Event.fetchMap], .error .keyError⟩ := by
              simp [process_month, c1, c2, c4, c3', c5]
            rw [e] at h
            simp at h
          | false =>
            cases c6 : (merged_output today (load_existing_data file) fetched).all
                (fun m => m.postal.isSome) with
            | false =>
              have e : process_month today sp fetched file =
                  ⟨file, [Event.fetchData], .error .valueError⟩ := by
                simp [process_month, c1, c2, c4, c3', c5, c6]
              rw [e] at h
              simp at h
            | true =>
              right
              have e : process_month today sp fetched file =
                  ⟨some (merged_output today (load_existing_data file) fetched),
                    [Event.fetchData, Event.writeFile], .ok true⟩ := by
                simp [process_month, c1, c2, c4, c3', c5, c6]
              rw [e] at h
              simp only [Except.ok.injEq] at h
              have hsp : sp = true := by
                cases hf : file with
                | none =>
                  rw [hf] at c4
                  simp [load_existing_data] at c4
                | some l =>
                  cases sp with
                  | true => rfl
                  | false =>
                    rw [hf] at c1
                    simp [skip_process] at c1
              exact ⟨h.symm, hsp, rfl, e⟩

/-! ## Theorems -/

/-- Witness data: an existing period-file row for record id 7 (address
"1 s", non-null postal, `_ts` "2020-01-01"). -/
def pmWex : FileRow :=
  ⟨7, "m", "t", "f", "1", "s", "04 TO 06", 90, "M", 1990, "70 years", 450000,
    "1 s", some 123456, some 1, some 103, some "2020-01-01"⟩

/-- Witness data: the re-fetched record id 7, every non-identifying field
changed, same address. -/
def pmW7 : TxRecord :=
  ⟨7, "m", "t", "f", "1", "s", "01 TO 03", 95, "M2", 1991, "69 years", 500000⟩

/-- Witness data: a newly appearing record id 8 at the same address. -/
def pmW8 : TxRecord :=
  ⟨8, "m", "t", "f", "1", "s", "04 TO 06", 91, "M", 1990, "70 years", 460000⟩

/-- Witness data: the merged output row for id 7 — new attribute fields,
coordinates re-attached from the existing file, `_ts` carried forward. -/
def pmWrow : FileRow :=
  ⟨7, "m", "t", "f", "1", "s", "01 TO 03", 95, "M2", 1991, "69 years", 500000,
    "1 s", some 123456, some 1, some 103, some "2020-01-01"⟩

/-- C1: when `process_month` merges a fetch against an existing period
file and writes, every written row whose record identifier occurs in the
existing file keeps that file's stored `_ts` (regardless of every other
field), and every row whose identifier does not occur there is stamped
with the current processing date. -/
theorem process_month_preserves_ts (today : String) (should_process : Bool)
    (fetched : List TxRecord) (ex : List FileRow)
    (h : (process_month today should_process fetched (some ex)).result = .ok true)
    (r : FileRow)
    (hr : r ∈ ((process_month today should_process fetched (some ex)).file.getD [])) :
    (∀ e : FileRow, ex.find? (fun e2 : FileRow => e2.id == r.id) = some e →
      ∀ s : String, e.ts = some s → r.ts = some s) ∧
    (ex.find? (fun e2 : FileRow => e2.id == r.id) = none → r.ts = some today) := by
  rcases process_month_ok_shape today should_process fetched (some ex) true h with
    ⟨hb, _⟩ | ⟨_, _, _, heq⟩
  · exact absurd hb (by simp)
  · rw [heq] at hr
    simp only [load_existing_data, Option.getD_some] at hr
    have hts := mem_merged_output_ts today ex fetched r hr
    constructor
    · intro e hfind s hs
      rw [hfind] at hts
      simpa [hs] using hts
    · intro hfind
      rw [hfind] at hts
      simpa using hts

/-- C1 (witness): a merge over an existing file holding id 7 with
`_ts = "2020-01-01"` keeps that `_ts` on the re-fetched id 7 even though
its other fields changed, while the new id 8 is stamped with the
processing date. -/
theorem process_month_preserves_ts_witness :
    (process_month "2024-05-01" true [pmW7, pmW8] (some [pmWex])).result = .ok true ∧
    pmWrow ∈ ((process_month "2024-05-01" true [pmW7, pmW8] (some [pmWex])).file.getD []) ∧
    pmWrow.ts = some "2020-01-01" :=
  ⟨by decide, by decide,
    (process_month_preserves_ts "2024-05-01" true [pmW7, pmW8] [pmWex] (by decide)
      pmWrow (by decide)).1 pmWex (by decide) "2020-01-01" rfl⟩

/-- C2: re-running `process_month` on identical fetched input right after
a run that returned: the second run detects the unchanged record count (or
skips) and returns `False`, leaving the period file byte-for-byte
untouched — regardless of the second run's processing date. -/
theorem process_month_idempotent (today today2 : String) (should_process : Bool)
    (fetched : List TxRecord) (file : Option (List FileRow)) (b : Bool)
    (h : (process_month today should_process fetched file).result = .ok b) :
    (process_month today2 should_process fetched
        (process_month today should_process fetched file).file).result = .ok false ∧
    (process_month today2 should_process fetched
        (process_month today should_process fetched file).file).file =
      (process_month today should_process fetched file).file := by
  rcases process_month_ok_shape today should_process fetched file b h with
    ⟨_, hall⟩ | ⟨_, hsp, hne, heq⟩
  · obtain ⟨ev1, he1⟩ := hall today
    obtain ⟨ev2, he2⟩ := hall today2
    rw [he1]
    rw [he2]
    exact ⟨rfl, rfl⟩
  · rw [heq]
    have hlen := merged_output_length today (load_existing_data file) fetched
    have hdfne : (merged_output today (load_existing_data file) fetched).isEmpty = false := by
      cases hdd : merged_output today (load_existing_data file) fetched with
      | nil =>
        rw [hdd] at hlen
        cases fetched with
        | nil => simp at hne
        | cons a as => simp at hlen
      | cons a as => rfl
    have hc1 : skip_process (some (merged_output today (load_existing_data file)
        fetched)).isSome should_process = true := by
      rw [hsp]; rfl
    have hc3 : (!(load_existing_data (some (merged_output today (load_existing_data file)
          fetched))).isEmpty &&
        (fetched.length == (load_existing_data (some (merged_output today
          (load_existing_data file) fetched))).length)) = true := by
      show (!(merged_output today (load_existing_data file) fetched).isEmpty &&
        (fetched.length == (merged_output today (load_existing_data file) fetched).length)) = true
      rw [hdfne, hlen]
      simp
    rw [process_month_samelen_eq today2 should_process fetched _ hc1 hne hc3]
    exact ⟨rfl, rfl⟩

/-- C2 (witness): a concrete successful merge followed by a second run on
the same fetch: the second run returns `False` and leaves the written file
unchanged. -/
theorem process_month_idempotent_witness :
    (process_month "2024-05-01" true [pmW7, pmW8] (some [pmWex])).result = .ok true ∧
    (process_month "2024-06-01" true [pmW7, pmW8]
        (process_month "2024-05-01" true [pmW7, pmW8] (some [pmWex])).file).result =
      .ok false ∧
    (process_month "2024-06-01" true [pmW7, pmW8]
        (process_month "2024-05-01" true [pmW7, pmW8] (some [pmWex])).file).file =
      (process_month "2024-05-01" true [pmW7, pmW8] (some [pmWex])).file :=
  ⟨by decide,
    (process_month_idempotent "2024-05-01" "2024-06-01" true [pmW7, pmW8]
      (some [pmWex]) true (by decide)).1,
    (process_month_idempotent "2024-05-01" "2024-06-01" true [pmW7, pmW8]
      (some [pmWex]) true (by decide)).2⟩

/-- C8: `convert_lease` maps a remaining-lease-years integer to the three
bucket labels with boundaries inclusive of the upper bound: 60 ↦
"0-60 years", 61 ↦ "61-80 years", 80 ↦ "61-80 years", 81 ↦ "81-99 years",
99 ↦ "81-99 years". -/
theorem convert_lease_bucket_boundaries :
    convert_lease 60 = some "0-60 years" ∧
    convert_lease 61 = some "61-80 years" ∧
    convert_lease 80 = some "61-80 years" ∧
    convert_lease 81 = some "81-99 years" ∧
    convert_lease 99 = some "81-99 years" := by
  decide

/-- C9 (counterexample): the claim asserts that the derived square-foot
area for 90.0 m² equals round(90.0 × 10.7639) = 969 and that the psf for
resale price 450000 equals 450000 ÷ 969.  The code truncates
90.0 × 10.7639 = 968.751 to 968, and divides the price by the untruncated
product, so both asserted values are wrong. -/
theorem floor_area_psf_claim_false :
    floor_area_sqft 90 ≠ 969 ∧ psf 90 450000 ≠ 450000 / 969 := by
  constructor
  · norm_num [floor_area_sqft, trunc_to_int, Rat.floor]
  · norm_num [psf]

/-- C9 (amended): during compaction the square-foot area is floor area in
m² × 10.7639 truncated toward zero — 90.0 m² gives 968 — and the psf is
resale price ÷ (m² × 10.7639), the untruncated area: for 90.0 m² and price
450000 it equals 450000/968.751 ≈ 464.52 (strictly between 464.51 and
464.52). -/
theorem floor_area_psf_derivation :
    floor_area_sqft 90 = 968 ∧
    psf 90 450000 = 450000 / (90 * (107639 / 10000 : Rat)) ∧
    (46451 / 100 : Rat) < psf 90 450000 ∧ psf 90 450000 < (46452 / 100 : Rat) := by
  refine ⟨?_, rfl, ?_, ?_⟩
  · norm_num [floor_area_sqft, trunc_to_int, Rat.floor]
  · norm_num [psf]
  · norm_num [psf]

/-- C10: for a period with no persisted file yet and a non-empty fetch,
`process_month` raises `NameError` (reading `new_adresses`, which is only
assigned inside the branch guarded by a non-empty existing frame) instead
of writing a period file: the file stays absent and only the data fetch
happened. -/
theorem process_month_first_run_nameerror (today : String) (should_process : Bool)
    (fetched : List TxRecord) (h : fetched ≠ []) :
    process_month today should_process fetched none =
      ⟨none, [Event.fetchData], .error (.nameError "new_adresses")⟩ := by
  cases fetched with
  | nil => exact absurd rfl h
  | cons r rs => simp [process_month, skip_process, load_existing_data]

/-- C10 (witness): a concrete first-ever extraction with one fetched
record raises the `NameError`. -/
theorem process_month_first_run_nameerror_witness :
    process_month "2024-05-01" true
        [⟨7, "m", "t", "f", "1", "s", "04 TO 06", 90, "M", 1990, "70 years", 450000⟩]
        none =
      ⟨none, [Event.fetchData], .error (.nameError "new_adresses")⟩ :=
  process_month_first_run_nameerror _ _ _ (List.cons_ne_nil _ _)

/-- C3: for a month that is neither the most-recently-completed nor the
current month and with no force flag, `extract` computes
`should_process = False`, and `process_month` on an existing period file
returns `False` immediately: no fetch, no geocoding, no write, file
contents unchanged. -/
theorem extract_skip_middle_period (month last_month current_month today : String)
    (h1 : month ≠ last_month) (h2 : month ≠ current_month)
    (fetched : List TxRecord) (f : List FileRow) :
    should_process_for false month last_month current_month = false ∧
    process_month today (should_process_for false month last_month current_month)
        fetched (some f) = ⟨some f, [], .ok false⟩ := by
  have hsp : should_process_for false month last_month current_month = false := by
    simp [should_process_for, h1, h2]
  refine ⟨hsp, ?_⟩
  rw [hsp]
  simp [process_month, skip_process]

/-- C3 (witness): a concrete mid-history month is skipped with the file
untouched. -/
theorem extract_skip_middle_period_witness :
    should_process_for false "2020-03" "2024-04" "2024-05" = false ∧
    process_month "2024-05-01" (should_process_for false "2020-03" "2024-04" "2024-05")
        [⟨7, "m", "t", "f", "1", "s", "04 TO 06", 90, "M", 1990, "70 years", 450000⟩]
        (some []) = ⟨some [], [], .ok false⟩ :=
  extract_skip_middle_period "2020-03" "2024-04" "2024-05" "2024-05-01"
    (by decide) (by decide) _ _

/-- Witness data: a reference-table row for address "1 s" with a resolved
postal code and longitude but no latitude. -/
def upiWex : PropRow :=
  ⟨"1 s", none, some 12, some 1990, some 100, some "123456", none, some 103⟩

/-- Witness data: a downloaded building row for a different address. -/
def upiWraw : RawPropRow :=
  ⟨"2", "t", some "AMK", some 10, some 2000, some 80⟩

/-- C4 (counterexample): address "1 s" carries a non-null postal code
(and longitude) in the reference table before the update, but its latitude
is null, so the update geocodes it; the primary geocoder returns no result,
the fresh row is all-null, and the per-column fill overwrites the stored
postal code and longitude with null — the persisted table no longer
carries the previously resolved values. -/
theorem update_property_info_clobbers_postal :
    upiWex.postal = some "123456" ∧ upiWex.longitude = some 103 ∧
    update_property_info ⟨fun _ => [], fun _ => []⟩ (some [upiWex]) [upiWraw] =
      .ok [{ upiWex with postal := none, longitude := none },
           ⟨"2 t", some "ANG MO KIO", some 10, some 2000, some 80, none, none, none⟩] ∧
    ({ upiWex with postal := none, longitude := none } : PropRow).postal = none := by
  decide

/-- C4 (amended): for every address whose first reference-table row has a
non-null latitude, `update_property_info` persists the row with its
postal, latitude and longitude unchanged (fresh geocoding touches only
rows whose latitude was missing after the merge); for an address with a
null latitude, the fill may overwrite its stored postal code and longitude
— including with null, when the fresh result is blank. -/
theorem update_property_info_preserves_resolved (net : GeoNet)
    (existing : List PropRow) (new_data : List RawPropRow) (a : String) (e : PropRow)
    (he : existing.find? (fun p : PropRow => p.address == a) = some e)
    (lv : Rat) (hlat : e.latitude = some lv)
    (out : List PropRow)
    (hout : update_property_info net (some existing) new_data = .ok out)
    (r : PropRow) (hr : r ∈ out) (hra : r.address = a) :
    r.postal = e.postal ∧ r.latitude = some lv ∧ r.longitude = e.longitude := by
  obtain ⟨m, hm, hcase⟩ := upi_out_rows net existing new_data out hout r hr
  have hmaddr : r.address = m.address := by
    rcases hcase with rfl | ⟨fresh, rfl⟩
    · rfl
    · exact assign_fresh_address fresh m
  have hma : m.address = a := by rw [← hmaddr, hra]
  have hc := merged_reference_coords existing new_data a e he m hm hma
  have hmlat : m.latitude = some lv := by rw [hc.2.1, hlat]
  rcases hcase with rfl | ⟨fresh, rfl⟩
  · exact ⟨hc.1, hmlat, hc.2.2⟩
  · rw [assign_fresh_of_lat_some fresh m lv hmlat]
    exact ⟨hc.1, hmlat, hc.2.2⟩

/-- Witness data: a fully resolved reference-table row for address
"1 s". -/
def upiWex2 : PropRow :=
  ⟨"1 s", none, some 12, some 1990, some 100, some "123456", some 1, some 103⟩

/-- Witness data: the table `update_property_info` persists in the C4
witness run. -/
def upiWout : List PropRow :=
  [upiWex2, ⟨"2 t", some "ANG MO KIO", some 10, some 2000, some 80, none, none, none⟩]

/-- C4 (witness): a fully resolved address "1 s" (postal, latitude and
longitude all non-null) keeps its coordinates through an update that
geocodes a new address against a geocoder returning no results. -/
theorem update_property_info_preserves_resolved_witness :
    update_property_info ⟨fun _ => [], fun _ => []⟩ (some [upiWex2]) [upiWraw] =
      .ok upiWout ∧
    upiWex2 ∈ upiWout ∧
    upiWex2.postal = some "123456" ∧
    upiWex2.latitude = some 1 ∧
    upiWex2.longitude = some 103 :=
  ⟨by decide, by decide, rfl,
    (update_property_info_preserves_resolved ⟨fun _ => [], fun _ => []⟩
        [upiWex2] [upiWraw] "1 s" upiWex2 (by decide) 1 rfl upiWout (by decide)
        upiWex2 (by decide) rfl).2.1,
    (update_property_info_preserves_resolved ⟨fun _ => [], fun _ => []⟩
        [upiWex2] [upiWraw] "1 s" upiWex2 (by decide) 1 rfl upiWout (by decide)
        upiWex2 (by decide) rfl).2.2⟩

/-- C5: when the first OneMap result for an address carries a postal code
shorter than 6 characters (such as "0" or "NIL"), the `extract.py`
`fetch_map_data` queries the OpenStreetMap fallback and returns the row
with the OSM postal code and the latitude/longitude of the OneMap
result. -/
theorem fetch_map_data_osm_fallback (net : GeoNet) (addr : String)
    (r : OneMapResult) (rs : List OneMapResult)
    (hr : net.onemap addr = r :: rs) (hshort : r.postal.length < 6) :
    Extract.fetch_map_data net addr =
      (.ok ⟨addr, fetch_osm_postal (net.osm addr), r.latitude, r.longitude⟩,
        [.onemapQuery addr, .osmQuery addr]) := by
  simp [Extract.fetch_map_data, hr, hshort]

/-- C5 (witness): a OneMap result with postal "0" falls back to the OSM
postal while keeping the OneMap coordinates. -/
theorem fetch_map_data_osm_fallback_witness :
    Extract.fetch_map_data
        ⟨fun _ => [⟨"0", "1.29", "103.85"⟩], fun _ => [⟨some "123456"⟩]⟩ "1 s" =
      (.ok ⟨"1 s", some "123456", "1.29", "103.85"⟩,
        [.onemapQuery "1 s", .osmQuery "1 s"]) :=
  fetch_map_data_osm_fallback _ "1 s" ⟨"0", "1.29", "103.85"⟩ [] rfl (by decide)

/-- C6 (code bug): the `geocoding.py` `fetch_map_data` does return the
all-null row for an address with no OneMap result, but its non-empty
branch indexes the `results` list with the string "POSTAL"
(`response["POSTAL"]` where `response = ...json()["results"]`), an
unconditional `TypeError`; so a batch that contains any address with a
OneMap result fails as a whole instead of completing with one row per
unique address.  Here "A" has no result and "B" has one: the single
lookup for "A" degrades to the null row as claimed, yet
`get_map_results ["A", "B"]` raises instead of returning two rows. -/
theorem get_map_results_batch_fails :
    Geocoding.fetch_map_data
        ⟨fun a => if a == "B" then [⟨"123456", "1.29", "103.85"⟩] else [], fun _ => []⟩
        "A" = .ok ⟨"A", none, none, none⟩ ∧
    Geocoding.get_map_results
        ⟨fun a => if a == "B" then [⟨"123456", "1.29", "103.85"⟩] else [], fun _ => []⟩
        ["A", "B"] = .error .typeError := by
  constructor
  · rfl
  · rfl

/-- C7: `download_dataset` returns status "skipped" — downloading and
writing nothing — exactly when the remote metadata fetch succeeded, both
the locally persisted and the remote `lastUpdatedAt` are present and
parseable, and local ≥ remote; it returns "success" exactly when the
metadata fetch succeeded, the skip condition failed, the poll-download
returned a URL and the file fetch succeeded — and then the file content is
written and, in standalone mode, the metadata including the fresh remote
timestamp is persisted; every other outcome (a network failure at any
stage, or a missing download URL) carries status "error".  The embedding
is a total function: no exception reaches the caller. -/
theorem download_dataset_status (dataset_id : String) (collection_name : Option String)
    (emdArg : Option (List (String × DatasetMeta))) (metadata_file : Option MetaFile)
    (now : String) (net : DownloadNet) :
    ((download_dataset dataset_id collection_name emdArg metadata_file now
        net).result.status = .skipped ↔
      ∃ m, net.metaResp = .ok m ∧
        skip_check (((loaded_emd emdArg metadata_file).lookup dataset_id).bind
          DatasetMeta.lastUpdatedAt) m.lastUpdatedAt = true) ∧
    ((download_dataset dataset_id collection_name emdArg metadata_file now
        net).result.status = .skipped →
      (download_dataset dataset_id collection_name emdArg metadata_file now
        net).fileWritten = none ∧
      (download_dataset dataset_id collection_name emdArg metadata_file now
        net).metadataWritten = none ∧
      (download_dataset dataset_id collection_name emdArg metadata_file now
        net).events = [.metaFetch]) ∧
    ((download_dataset dataset_id collection_name emdArg metadata_file now
        net).result.status = .success ↔
      ∃ m u c, net.metaResp = .ok m ∧
        skip_check (((loaded_emd emdArg metadata_file).lookup dataset_id).bind
          DatasetMeta.lastUpdatedAt) m.lastUpdatedAt = false ∧
        net.pollResp = .ok (some u) ∧ net.fileResp = .ok c) ∧
    ((download_dataset dataset_id collection_name emdArg metadata_file now
        net).result.status = .success →
      ∃ m c, net.metaResp = .ok m ∧ net.fileResp = .ok c ∧
        (download_dataset dataset_id collection_name emdArg metadata_file now
          net).fileWritten = some c ∧
        (download_dataset dataset_id collection_name emdArg metadata_file now
          net).result.metadata = some { m with lastAccessedAt := some now } ∧
        (collection_name.getD "Standalone Datasets" = "Standalone Datasets" →
          (download_dataset dataset_id collection_name emdArg metadata_file now
            net).metadataWritten =
            some (dictInsert (loaded_emd emdArg metadata_file) dataset_id
              { m with lastAccessedAt := some now }))) := by
  obtain ⟨mr, pr, fr⟩ := net
  cases mr with
  | failed e => simp [download_dataset]
  | ok m =>
    cases hsk : skip_check (((loaded_emd emdArg metadata_file).lookup dataset_id).bind
        DatasetMeta.lastUpdatedAt) m.lastUpdatedAt with
    | true => simp [download_dataset, hsk]
    | false =>
      cases pr with
      | failed e => simp [download_dataset, hsk]
      | ok u? =>
        cases u? with
        | none => simp [download_dataset, hsk]
        | some u =>
          cases fr with
          | failed e => simp [download_dataset, hsk]
          | ok content =>
            refine ⟨by simp [download_dataset, hsk], by simp [download_dataset, hsk],
              ?_, ?_⟩
            · simp [download_dataset, hsk]
            · intro _
              refine ⟨m, content, rfl, rfl, by simp [download_dataset, hsk], by
                simp [download_dataset, hsk], ?_⟩
              intro hcn
              simp [download_dataset, hsk, hcn]

/-- C7 (witness): with a persisted timestamp 5 and a remote timestamp 3
the dataset is skipped; with remote timestamp 7, a download URL and
content, it succeeds and writes the fresh metadata. -/
theorem download_dataset_status_witness :
    (download_dataset "d" none
        (some [("d", ⟨some "n", some "csv", some (.valid 5), none⟩)]) none "2024"
        ⟨.ok ⟨some "n", some "csv", some (.valid 3), none⟩, .ok none,
          .failed "x"⟩).result.status = .skipped ∧
    (download_dataset "d" none
        (some [("d", ⟨some "n", some "csv", some (.valid 5), none⟩)]) none "2024"
        ⟨.ok ⟨some "n", some "csv", some (.valid 7), none⟩, .ok (some "u"),
          .ok "bytes"⟩).result.status = .success :=
  ⟨(download_dataset_status "d" none
      (some [("d", ⟨some "n", some "csv", some (.valid 5), none⟩)]) none "2024"
      ⟨.ok ⟨some "n", some "csv", some (.valid 3), none⟩, .ok none,
        .failed "x"⟩).1.mpr
    ⟨⟨some "n", some "csv", some (.valid 3), none⟩, rfl, by decide⟩,
   (download_dataset_status "d" none
      (some [("d", ⟨some "n", some "csv", some (.valid 5), none⟩)]) none "2024"
      ⟨.ok ⟨some "n", some "csv", some (.valid 7), none⟩, .ok (some "u"),
        .ok "bytes"⟩).2.2.1.mpr
    ⟨⟨some "n", some "csv", some (.valid 7), none⟩, "u", "bytes", rfl, by decide,
      rfl, rfl⟩⟩

end HdbKaki

